import Mathlib

/-!
Verification of the voxel demo's core update systems against their
natural-language specification.

The embedding below translates the systems of `src/main.rs` into Lean:

* `player_controller` — the Motion Controller (`fn player_controller`,
  lines 424-469): per-tick keyboard movement of a target position, two
  exponential-smoothing interpolations of the rendered position, gravity
  integration of a vertical velocity, a jump trigger on a just-pressed
  space key, and a ground clamp.  Machine `f32` arithmetic is embedded as
  exact rational arithmetic (ℚ).
* `camera_controller` — the Follow Camera (`fn camera_controller`,
  lines 471-483): places the camera at `(current.x + 10, 7, current.z)`
  and aims it at the player's current position.
* `bounce_player` (line 485): a system with an empty body.
* `PostProcessNode.run` (lines 159-239): the render-graph node's control
  flow, embedded as a function from the availability of the cached
  pipeline and of the settings uniform binding to the list of GPU
  commands it records.
* `update_settings` (lines 488-502): the per-frame intensity animation,
  embedded over ℝ because it uses `sin`.
-/

/-- A 3-component vector, embedded with exact rational components. -/
structure Vec3 where
  x : ℚ
  y : ℚ
  z : ℚ
deriving DecidableEq

/-- Componentwise vector addition (glam `Vec3: Add`). -/
def Vec3.add (a b : Vec3) : Vec3 :=
  ⟨a.x + b.x, a.y + b.y, a.z + b.z⟩

/-- Componentwise vector subtraction (glam `Vec3: Sub`). -/
def Vec3.sub (a b : Vec3) : Vec3 :=
  ⟨a.x - b.x, a.y - b.y, a.z - b.z⟩

/-- Vector-by-scalar multiplication (glam `Vec3 * f32`). -/
def Vec3.scale (a : Vec3) (s : ℚ) : Vec3 :=
  ⟨a.x * s, a.y * s, a.z * s⟩

/-- glam `Vec3::lerp`: `self + ((rhs - self) * s)`. -/
def Vec3.lerp (a b : Vec3) (s : ℚ) : Vec3 :=
  ⟨a.x + (b.x - a.x) * s, a.y + (b.y - a.y) * s, a.z + (b.z - a.z) * s⟩

/-- Squared Euclidean distance between two vectors. -/
def distSq (a b : Vec3) : ℚ :=
  (a.x - b.x) ^ 2 + (a.y - b.y) ^ 2 + (a.z - b.z) ^ 2

/-- Squared horizontal (x/z-plane) distance between two vectors. -/
def horizDistSq (a b : Vec3) : ℚ :=
  (a.x - b.x) ^ 2 + (a.z - b.z) ^ 2

/-- The `Position` component of `main.rs`: smoothed current position,
input-driven target position, and signed vertical velocity. -/
structure Position where
  current : Vec3
  target : Vec3
  vertical_velocity : ℚ
deriving DecidableEq

/-- The keyboard state sampled by `player_controller` in one tick:
held state of W/A/S/D and the just-pressed (rising-edge) state of space. -/
structure KeyState where
  w : Bool
  a : Bool
  s : Bool
  d : Bool
  space : Bool
deriving DecidableEq

/-- `const PLAYER_SPEED: f32 = 3.0`. -/
def PLAYER_SPEED : ℚ := 3

/-- `const JUMP_VELOCITY: f32 = 3.0`. -/
def JUMP_VELOCITY : ℚ := 3

/-- `const GRAVITY: f32 = -12.`. -/
def GRAVITY : ℚ := -12

/-- The four key-movement additions at the top of `player_controller`:
W adds `(-PLAYER_SPEED, 0, 0) * dt`, A adds `(0, 0, PLAYER_SPEED) * dt`,
S adds `(PLAYER_SPEED, 0, 0) * dt`, D adds `(0, 0, -PLAYER_SPEED) * dt`,
each applied to `position.target` in that order when its key is held. -/
def moveTarget (keys : KeyState) (dt : ℚ) (t : Vec3) : Vec3 :=
  let t1 := if keys.w then t.add (Vec3.scale ⟨-PLAYER_SPEED, 0, 0⟩ dt) else t
  let t2 := if keys.a then t1.add (Vec3.scale ⟨0, 0, PLAYER_SPEED⟩ dt) else t1
  let t3 := if keys.s then t2.add (Vec3.scale ⟨PLAYER_SPEED, 0, 0⟩ dt) else t2
  if keys.d then t3.add (Vec3.scale ⟨0, 0, -PLAYER_SPEED⟩ dt) else t3

/-- The tick up to (but not including) the jump check: key movement, the
first `current = current.lerp(target, 0.1)`, gravity integration
`vertical_velocity += GRAVITY * dt`, and `target.y += vertical_velocity * dt`. -/
def beforeJump (keys : KeyState) (dt : ℚ) (p : Position) : Position :=
  let t := moveTarget keys dt p.target
  let cur := p.current.lerp t (1 / 10)
  let vv := p.vertical_velocity + GRAVITY * dt
  ⟨cur, ⟨t.x, t.y + vv * dt, t.z⟩, vv⟩

/-- The jump branch: `if just_pressed(Space) && target.y <= 0.0`, set
`vertical_velocity = JUMP_VELOCITY` and `target.y = 0.1`. -/
def jumpStep (keys : KeyState) (p : Position) : Position :=
  if keys.space ∧ p.target.y ≤ 0 then
    ⟨p.current, ⟨p.target.x, 1 / 10, p.target.z⟩, JUMP_VELOCITY⟩
  else p

/-- The ground clamp: `if target.y < 0.0`, set `target.y = 0.0` and
`vertical_velocity = 0.0`. -/
def groundClamp (p : Position) : Position :=
  if p.target.y < 0 then ⟨p.current, ⟨p.target.x, 0, p.target.z⟩, 0⟩ else p

/-- One tick of `fn player_controller` on one player entity: key movement,
first smoothing lerp, gravity integration, jump check, ground clamp, and
the second smoothing lerp `current = current.lerp(target, 0.1)`.  The
entity's `Transform.translation` is set to `current` and carries no extra
state, so it is not modelled separately. -/
def player_controller (keys : KeyState) (dt : ℚ) (p : Position) : Position :=
  let q := groundClamp (jumpStep keys (beforeJump keys dt p))
  ⟨q.current.lerp q.target (1 / 10), q.target, q.vertical_velocity⟩

/-- The camera transform produced by `fn camera_controller`: a world
translation and the point the camera is aimed at (`look_at`). -/
structure CameraPose where
  translation : Vec3
  lookTarget : Vec3
deriving DecidableEq

/-- `fn camera_controller`: the camera translation is
`Vec3::new(position.current.x + 10.0, 7.0, position.current.z)` and the
camera looks at `position.current` (world up `Vec3::Y`; the resulting
orientation is determined by these two points and is not modelled
further). -/
def camera_controller (playerCurrent : Vec3) : CameraPose :=
  ⟨⟨playerCurrent.x + 10, 7, playerCurrent.z⟩, playerCurrent⟩

/-- `fn bounce_player`: the system's body is empty, so the queried
`Transform`s of `Bouncing` entities are returned unchanged. -/
def bounce_player (_dt : ℚ) (bouncers : List Vec3) : List Vec3 :=
  bouncers

/-- The error type of a render-graph node's `run` method. -/
inductive NodeRunError where
  | runError
deriving DecidableEq

/-- A GPU command recorded by the post-process pass. -/
inductive RenderOp where
  | setRenderPipeline (id : ℕ)
  | setBindGroup (index : ℕ)
  | draw (vertices instances : ℕ)
deriving DecidableEq

/-- Control flow of `PostProcessNode::run`: if the pipeline-cache lookup
for the pipeline id yields nothing, return `Ok(())` with no commands
recorded; likewise if the settings uniform has no binding; otherwise
record the render pass `set_render_pipeline`, `set_bind_group(0, ..)`,
`draw(0..3, 0..1)` and return `Ok(())`. -/
def PostProcessNode.run (cachedPipeline : Option ℕ) (settingsBinding : Option ℕ) :
    Except NodeRunError (List RenderOp) :=
  match cachedPipeline with
  | none => Except.ok []
  | some pid =>
    match settingsBinding with
    | none => Except.ok []
    | some _ =>
      Except.ok [RenderOp.setRenderPipeline pid, RenderOp.setBindGroup 0, RenderOp.draw 3 1]

/-- The intensity computed by `fn update_settings` from the elapsed time:
`sin(sin(elapsed)) * 0.5 + 0.5`, then scaled by `0.015`. -/
noncomputable def intensity_of (elapsed : ℝ) : ℝ :=
  (Real.sin (Real.sin elapsed) * 0.5 + 0.5) * 0.015

/-- `fn update_settings`: every queried `PostProcessSettings.intensity`
is overwritten with `intensity_of elapsed`; the previous values are not
read. -/
noncomputable def update_settings (settings : List ℝ) (elapsed : ℝ) : List ℝ :=
  settings.map (fun _ => intensity_of elapsed)

-- Concrete states used by witnesses and counterexamples.

/-- No keys held, no jump press. -/
def keysNone : KeyState := ⟨false, false, false, false, false⟩

/-- Only W held. -/
def keysW : KeyState := ⟨true, false, false, false, false⟩

/-- W and A held (a diagonal tick). -/
def keysWA : KeyState := ⟨true, true, false, false, false⟩

/-- Only space just pressed. -/
def keysSpace : KeyState := ⟨false, false, false, false, true⟩

/-- The spawn state: everything zero. -/
def p0 : Position := ⟨⟨0, 0, 0⟩, ⟨0, 0, 0⟩, 0⟩

/-- A state whose current position differs from its target. -/
def pC1 : Position := ⟨⟨1, 0, 0⟩, ⟨0, 0, 0⟩, 0⟩

/-- A state at rest on the ground at height 0.1 with upward velocity 3,
as produced by the jump branch. -/
def pC7 : Position := ⟨⟨0, 1 / 10, 0⟩, ⟨0, 1 / 10, 0⟩, 3⟩

/-- An airborne state well above the ground. -/
def pHigh : Position := ⟨⟨0, 0, 0⟩, ⟨0, 10, 0⟩, 0⟩

-- Claim theorems.

/-- Claim C1, as stated, is false: at `dt = 0` with `current ≠ target`
the tick is not a no-op, because `current` is still interpolated toward
`target` by the two smoothing lerps (here `current.x` moves from 1 to
0.81). -/
theorem C1_counterexample : player_controller keysNone 0 pC1 ≠ pC1 := by
  with_unfolding_all decide

/-- Claim C1 (amended): for `dt = 0`, with the jump key not just-pressed
and a non-negative input target height, the tick leaves `target_position`
and `vertical_velocity` unchanged, but `current_position` is still
interpolated toward `target_position` twice with blend factor 0.1, so
the tick is a no-op only when `current = target`. -/
theorem C1_dt_zero_behavior (keys : KeyState) (p : Position)
    (hspace : keys.space = false) (hy : 0 ≤ p.target.y) :
    (player_controller keys 0 p).target = p.target ∧
    (player_controller keys 0 p).vertical_velocity = p.vertical_velocity ∧
    (player_controller keys 0 p).current =
      (p.current.lerp p.target (1 / 10)).lerp p.target (1 / 10) := by
  obtain ⟨w, a, s, d, sp⟩ := keys
  obtain ⟨c, t, vv⟩ := p
  simp only at hspace hy
  subst hspace
  cases w <;> cases a <;> cases s <;> cases d <;>
    simp [player_controller, beforeJump, moveTarget, jumpStep, groundClamp,
      Vec3.lerp, Vec3.add, Vec3.scale, PLAYER_SPEED, GRAVITY, JUMP_VELOCITY,
      not_lt.mpr hy]

/-- Witness for C1's amended theorem at the concrete state `pC1` with no
keys active. -/
theorem C1_dt_zero_behavior_witness :
    keysNone.space = false ∧ (0 : ℚ) ≤ pC1.target.y ∧
    ((player_controller keysNone 0 pC1).target = pC1.target ∧
     (player_controller keysNone 0 pC1).vertical_velocity = pC1.vertical_velocity ∧
     (player_controller keysNone 0 pC1).current =
       (pC1.current.lerp pC1.target (1 / 10)).lerp pC1.target (1 / 10)) :=
  ⟨rfl, by with_unfolding_all decide,
    C1_dt_zero_behavior keysNone pC1 rfl (by with_unfolding_all decide)⟩

/-- Claim C2, as stated, is false: the vector from the player's current
position to the camera is not constant, because the camera height is the
absolute 7 rather than an offset — raising `current.y` from 0 to 1
changes the difference vector. -/
theorem C2_counterexample :
    Vec3.sub (camera_controller ⟨0, 0, 0⟩).translation ⟨0, 0, 0⟩ ≠
      Vec3.sub (camera_controller ⟨0, 1, 0⟩).translation ⟨0, 1, 0⟩ := by
  with_unfolding_all decide

/-- Claim C2 (amended): the camera pose is a pure function of the
player's current position (no accumulated state): its x offset from the
player is the constant 10, its z offset the constant 0, while its height
is the absolute constant 7 (not an offset); the look-at target is the
player's current position. -/
theorem C2_camera_rigidity (c : Vec3) :
    (camera_controller c).translation.x - c.x = 10 ∧
    (camera_controller c).translation.z - c.z = 0 ∧
    (camera_controller c).translation.y = 7 ∧
    (camera_controller c).lookTarget = c := by
  simp [camera_controller]

/-- Claim C3, as stated, is false: a W-only tick at `dt = 1` moves the
horizontal target by squared distance 9, while a diagonal W+A tick moves
it by squared distance 18 — the summed key directions are not
normalized, so a diagonal tick travels √2 times farther. -/
theorem C3_counterexample :
    horizDistSq (player_controller keysW 1 p0).target p0.target = 9 ∧
    horizDistSq (player_controller keysWA 1 p0).target p0.target = 18 ∧
    horizDistSq (player_controller keysW 1 p0).target p0.target ≠
      horizDistSq (player_controller keysWA 1 p0).target p0.target := by
  refine ⟨?_, ?_, ?_⟩ <;> with_unfolding_all decide

/-- Claim C3 (amended): the horizontal movement of a tick is the sum of
the per-key axis vectors, each scaled by `PLAYER_SPEED * dt`, with no
normalization: the target's x component moves by
`((S active) - (W active)) * PLAYER_SPEED * dt` and its z component by
`((A active) - (D active)) * PLAYER_SPEED * dt`, so a two-key diagonal
tick displaces the target √2 times (not equally) as far as a single-key
tick. -/
theorem C3_movement_unnormalized (keys : KeyState) (dt : ℚ) (p : Position) :
    (player_controller keys dt p).target.x =
      p.target.x +
        ((if keys.s then 1 else 0) - (if keys.w then 1 else 0)) * (PLAYER_SPEED * dt) ∧
    (player_controller keys dt p).target.z =
      p.target.z +
        ((if keys.a then 1 else 0) - (if keys.d then 1 else 0)) * (PLAYER_SPEED * dt) := by
  obtain ⟨w, a, s, d, sp⟩ := keys
  obtain ⟨c, t, vv⟩ := p
  cases w <;> cases a <;> cases s <;> cases d <;>
    simp [player_controller, beforeJump, moveTarget, jumpStep, groundClamp,
      Vec3.lerp, Vec3.add, Vec3.scale, PLAYER_SPEED, GRAVITY, JUMP_VELOCITY] <;>
    split_ifs <;> simp

/-- Claim C4: after every tick the target height is non-negative, and
whenever the pre-clamp part of the tick (movement, gravity integration
and jump) leaves the target height negative, the tick ends with target
height exactly 0 and vertical velocity exactly 0. -/
theorem C4_ground_clamp (keys : KeyState) (dt : ℚ) (p : Position) :
    0 ≤ (player_controller keys dt p).target.y ∧
    ((jumpStep keys (beforeJump keys dt p)).target.y < 0 →
      (player_controller keys dt p).target.y = 0 ∧
      (player_controller keys dt p).vertical_velocity = 0) := by
  constructor
  · by_cases h : (jumpStep keys (beforeJump keys dt p)).target.y < 0 <;>
      simp [player_controller, groundClamp, h]
    linarith [not_lt.mp h]
  · intro h
    simp [player_controller, groundClamp, h]

/-- Witness for C4 at the spawn state with `dt = 1` and no input: gravity
drives the pre-clamp target height to −12, and the tick ends clamped at
height 0 with zero vertical velocity. -/
theorem C4_ground_clamp_witness :
    (jumpStep keysNone (beforeJump keysNone 1 p0)).target.y < 0 ∧
    ((player_controller keysNone 1 p0).target.y = 0 ∧
     (player_controller keysNone 1 p0).vertical_velocity = 0) :=
  ⟨by with_unfolding_all decide,
    (C4_ground_clamp keysNone 1 p0).2 (by with_unfolding_all decide)⟩

/-- Claim C5: the jump branch fires only on a just-pressed jump key and
only when the target height at the check (after movement and gravity
integration) is at most 0; it then sets the vertical velocity to
`JUMP_VELOCITY` and the target height to the epsilon 0.1.  When the
target height at the check is positive, a tick with the jump key pressed
equals the same tick without it (no double-jump); with no jump press the
branch changes nothing. -/
theorem C5_jump_semantics (keys : KeyState) (dt : ℚ) (p : Position) :
    (keys.space = true → (beforeJump keys dt p).target.y ≤ 0 →
      (jumpStep keys (beforeJump keys dt p)).vertical_velocity = JUMP_VELOCITY ∧
      (jumpStep keys (beforeJump keys dt p)).target.y = 1 / 10) ∧
    (0 < (beforeJump keys dt p).target.y →
      player_controller keys dt p =
        player_controller ⟨keys.w, keys.a, keys.s, keys.d, false⟩ dt p) ∧
    (keys.space = false → jumpStep keys (beforeJump keys dt p) = beforeJump keys dt p) := by
  refine ⟨fun hs hy => ?_, fun hy => ?_, fun hs => ?_⟩
  · simp [jumpStep, hs, hy]
  · have hb : beforeJump ⟨keys.w, keys.a, keys.s, keys.d, false⟩ dt p = beforeJump keys dt p :=
      rfl
    simp [player_controller, hb, jumpStep, not_le.mpr hy]
  · simp [jumpStep, hs]

/-- Witness for C5: a jump press at the spawn state with `dt = 1` fires
the impulse and the epsilon nudge, while a jump press in an airborne
state (target height 7 at the check) leaves the tick identical to one
without the press. -/
theorem C5_jump_semantics_witness :
    ((jumpStep keysSpace (beforeJump keysSpace 1 p0)).vertical_velocity = JUMP_VELOCITY ∧
     (jumpStep keysSpace (beforeJump keysSpace 1 p0)).target.y = 1 / 10) ∧
    player_controller keysSpace (1 / 2) pHigh = player_controller keysNone (1 / 2) pHigh :=
  ⟨(C5_jump_semantics keysSpace 1 p0).1 rfl (by with_unfolding_all decide),
   (C5_jump_semantics keysSpace (1 / 2) pHigh).2.1 (by with_unfolding_all decide)⟩

/-- Claim C6, as stated, is false: in this source the movement is scaled
by `PLAYER_SPEED * dt` only once — a W-only tick at `dt = 1` moves the
target's x by `-(PLAYER_SPEED * 1) = -3`, not by the double-scaled
`-(PLAYER_SPEED * 1)^2 = -9`. -/
theorem C6_counterexample :
    (player_controller keysW 1 p0).target.x - p0.target.x = -(PLAYER_SPEED * 1) ∧
    (player_controller keysW 1 p0).target.x - p0.target.x ≠
      -((PLAYER_SPEED * 1) * (PLAYER_SPEED * 1)) := by
  constructor <;> with_unfolding_all decide

/-- Claim C6 (amended): the horizontal movement added to the target in a
tick is the key direction scaled by `PLAYER_SPEED * dt` exactly once, so
the per-tick horizontal displacement scales linearly (not quadratically)
with `dt`: doubling `dt` doubles the displacement. -/
theorem C6_single_scaling_linear_dt (dt : ℚ) (p : Position) :
    (player_controller keysW dt p).target.x - p.target.x = -(PLAYER_SPEED * dt) ∧
    (player_controller keysW (2 * dt) p).target.x - p.target.x =
      2 * ((player_controller keysW dt p).target.x - p.target.x) := by
  obtain ⟨c, t, vv⟩ := p
  constructor <;>
    simp [player_controller, beforeJump, moveTarget, jumpStep, groundClamp, keysW,
      Vec3.lerp, Vec3.add, Vec3.scale, PLAYER_SPEED, GRAVITY, JUMP_VELOCITY] <;>
    split_ifs <;> simp <;> ring

/-- Claim C7, as stated, is false: a zero-input tick can increase the
distance from `current` to `target` — starting at rest on the jump
epsilon with upward velocity 3, gravity moves `target.y` after the first
lerp, and the squared distance grows from 0 to a positive value. -/
theorem C7_counterexample :
    distSq pC7.current pC7.target <
      distSq (player_controller keysNone (1 / 10) pC7).current
        (player_controller keysNone (1 / 10) pC7).target := by
  with_unfolding_all decide

/-- Claim C7 (amended): in a tick with no movement input the target's x
and z components are unchanged (only y moves, via gravity, jump and
clamp), and the final smoothing lerp contracts the squared distance to
the final target by the factor 0.81 (so it never overshoots in one
step); across the whole tick, however, the distance to the target may
grow because the target's y moves between the two lerps. -/
theorem C7_no_input_xz_fixed_lerp_contracts (keys : KeyState) (dt : ℚ) (p : Position)
    (hw : keys.w = false) (ha : keys.a = false) (hs : keys.s = false) (hd : keys.d = false) :
    (player_controller keys dt p).target.x = p.target.x ∧
    (player_controller keys dt p).target.z = p.target.z ∧
    distSq (player_controller keys dt p).current (player_controller keys dt p).target =
      81 / 100 *
        distSq (groundClamp (jumpStep keys (beforeJump keys dt p))).current
          (player_controller keys dt p).target := by
  refine ⟨?_, ?_, ?_⟩
  · simp [player_controller, beforeJump, moveTarget, jumpStep, groundClamp, hw, ha, hs, hd]
    split_ifs <;> simp
  · simp [player_controller, beforeJump, moveTarget, jumpStep, groundClamp, hw, ha, hs, hd]
    split_ifs <;> simp
  · have htarget : (player_controller keys dt p).target =
        (groundClamp (jumpStep keys (beforeJump keys dt p))).target := rfl
    have hcur : (player_controller keys dt p).current =
        (groundClamp (jumpStep keys (beforeJump keys dt p))).current.lerp
          (groundClamp (jumpStep keys (beforeJump keys dt p))).target (1 / 10) := rfl
    rw [htarget, hcur]
    simp only [distSq, Vec3.lerp]
    ring

/-- Witness for C7's amended theorem at the counterexample state: no
movement keys are active, and the tick keeps x and z fixed while the
final lerp contracts the squared distance by 0.81. -/
theorem C7_no_input_witness :
    (player_controller keysNone (1 / 10) pC7).target.x = pC7.target.x ∧
    (player_controller keysNone (1 / 10) pC7).target.z = pC7.target.z ∧
    distSq (player_controller keysNone (1 / 10) pC7).current
        (player_controller keysNone (1 / 10) pC7).target =
      81 / 100 *
        distSq (groundClamp (jumpStep keysNone (beforeJump keysNone (1 / 10) pC7))).current
          (player_controller keysNone (1 / 10) pC7).target :=
  C7_no_input_xz_fixed_lerp_contracts keysNone (1 / 10) pC7 rfl rfl rfl rfl

/-- Claim C8: when the pipeline cache does not yet hold the post-process
render pipeline, `PostProcessNode::run` records no draw commands and
returns `Ok` (it skips the compositing pass for the frame instead of
erroring or blocking). -/
theorem C8_missing_pipeline_skips (binding : Option ℕ) :
    PostProcessNode.run none binding = Except.ok [] := rfl

/-- Claim C9: every intensity written by `update_settings` lies in
[0, 1], and the written values depend only on the elapsed time, not on
the previous intensities: replacing the previous settings values by any
others (same number of settings) gives the same output. -/
theorem C9_intensity_bounds_no_accumulation (s : List ℝ) (t : ℝ) :
    (∀ x ∈ update_settings s t, 0 ≤ x ∧ x ≤ 1) ∧
    (∀ s2 : List ℝ, s.length = s2.length → update_settings s t = update_settings s2 t) := by
  constructor
  · intro x hx
    simp only [update_settings, List.mem_map] at hx
    obtain ⟨_, _, rfl⟩ := hx
    unfold intensity_of
    have h1 := Real.neg_one_le_sin (Real.sin t)
    have h2 := Real.sin_le_one (Real.sin t)
    constructor <;> nlinarith
  · intro s2 hlen
    simp only [update_settings]
    rw [List.map_const', List.map_const', hlen]

/-- Witness for C9 at elapsed time 0 with one settings entry: the
written intensity is in [0, 1] and does not depend on the previous value
(0 versus 1). -/
theorem C9_witness :
    (0 ≤ intensity_of 0 ∧ intensity_of 0 ≤ 1) ∧
    update_settings [0] 0 = update_settings [1] 0 :=
  ⟨(C9_intensity_bounds_no_accumulation [0] 0).1 (intensity_of 0) (by simp [update_settings]),
   (C9_intensity_bounds_no_accumulation [0] 0).2 [1] rfl⟩

/-- Claim C10: `bounce_player` has an empty body, so it leaves every
queried transform unchanged. -/
theorem C10_bounce_player_noop (dt : ℚ) (ts : List Vec3) :
    bounce_player dt ts = ts := rfl

